import Mathlib

/-
Verification of the concurrency / coordination core of the tev image viewer
against its specification. The embedding below is a shallow model of
src/src/main.cpp together with spec-modelled components (SharedQueue,
ThreadPool) whose headers are not part of the given sources.
-/

namespace Tev

/-- Modelled from the spec: `SharedQueue` (include/SharedQueue.h is not under
src/). A thread-safe FIFO container; `push` appends at the back and never
blocks, `tryPop` removes the oldest unconsumed item. All mutation is through
its own synchronized operations, so each operation takes effect atomically;
we model the state as the list of currently enqueued items. -/
structure SharedQueue (α : Type) where
  items : List α
  deriving DecidableEq

/-- Modelled from the spec: `push(item)` enqueues `item` at the back. -/
def SharedQueue.push (q : SharedQueue α) (x : α) : SharedQueue α :=
  ⟨q.items ++ [x]⟩

/-- Modelled from the spec: `tryPop()` is non-blocking and returns the oldest
unconsumed item, or an empty result if none, together with the queue that
remains. -/
def SharedQueue.tryPop (q : SharedQueue α) : Option α × SharedQueue α :=
  match q.items with
  | [] => (none, q)
  | x :: xs => (some x, ⟨xs⟩)

/-- Auxiliary: drain a list of enqueued items front to back. -/
def drainList : List α → List α
  | [] => []
  | x :: xs => x :: drainList xs

/-- Repeatedly `tryPop` until the queue reports empty, collecting the items in
the order they were returned. -/
def SharedQueue.drainAll (q : SharedQueue α) : List α :=
  drainList q.items

/-- `ImageAddition`: the unit of completed work handed to the interactive
consumer. In the source it is `{ shouldReplace : bool, image : shared_ptr }`;
the possibly-null pointer is modelled as an `Option`. -/
structure ImageAddition (Image : Type) where
  shouldReplace : Bool
  image : Option Image
  deriving DecidableEq

/-- A startup load task's inputs: the file path and the channel selector that
was active when the task was enqueued (captured by value in the source). -/
structure LoadTask where
  path : String
  selector : String
  deriving DecidableEq

/-- Observable effect of one iteration of the secondary-instance loop:
either a payload handed to `sendToPrimaryInstance`, or an error message
written to the error stream (`cerr`). -/
inductive SecEvent where
  /-- A payload successfully handed to `sendToPrimaryInstance`. -/
  | sent (payload : String) : SecEvent
  /-- A per-file error message written to `cerr`. -/
  | errorReported (msg : String) : SecEvent
  deriving DecidableEq

/-- Environment of external fallible operations used by the secondary path:
`absolutePath` and `sendToPrimaryInstance` may each throw `runtime_error`,
modelled as `Except` with the exception message. -/
structure SecEnv where
  absolutePath : String → Except String String
  sendToPrimaryInstance : String → Except String Unit

/-- A single-quote character, used in the error message of the source. -/
def squote : String :=
  String.singleton (Char.ofNat 39)

/-- The message printed by the secondary loop on a failed forward, from
main.cpp line 149: `"Invalid file " ++ imageFile ++ ": " ++ e.what()`,
with the file name surrounded by single quotes. -/
def invalidFileMsg (imageFile what : String) : String :=
  "Invalid file " ++ squote ++ imageFile ++ squote ++ ": " ++ what

/-- A token is treated as a channel selector when it is nonempty and its
first character is a colon (main.cpp lines 141 and 164). -/
def isSelectorToken (t : String) : Bool :=
  !t.isEmpty && t.front == ':'

/-- One forwarding attempt of the secondary loop (main.cpp lines 146-150):
make the path absolute, build the payload `absolutePath + ":" + selector`,
and send it; a `runtime_error` from either step is caught and reported as a
per-file message on the error stream. -/
def forwardOne (env : SecEnv) (sel t : String) : SecEvent :=
  match env.absolutePath t with
  | Except.error e => SecEvent.errorReported (invalidFileMsg t e)
  | Except.ok a =>
    match env.sendToPrimaryInstance (a ++ ":" ++ sel) with
    | Except.error e => SecEvent.errorReported (invalidFileMsg t e)
    | Except.ok _ => SecEvent.sent (a ++ ":" ++ sel)

/-- The secondary-instance loop over the positional tokens (main.cpp lines
139-151): a selector token replaces the active selector with its remainder
and produces no event; every other token is forwarded with the currently
active selector. -/
def secondaryLoop (env : SecEnv) : String → List String → List SecEvent
  | _, [] => []
  | sel, t :: ts =>
    if isSelectorToken t then secondaryLoop env (t.drop 1) ts
    else forwardOne env sel t :: secondaryLoop env sel ts

/-- The primary-instance startup loop over the positional tokens (main.cpp
lines 162-175): a selector token replaces the active selector with its
remainder; every other token is enqueued as one load task capturing the file
name and the currently active selector. -/
def primaryLoop : String → List String → List LoadTask
  | _, [] => []
  | sel, t :: ts =>
    if isSelectorToken t then primaryLoop (t.drop 1) ts
    else LoadTask.mk t sel :: primaryLoop sel ts

/-- Specification-side reading of the selector protocol: pair every
non-selector token with the most recently set selector, starting from the
given one; a selector token replaces the selector with its remainder and is
dropped. Used to compare both loops of the source against the spec. -/
def annotate : String → List String → List (String × String)
  | _, [] => []
  | sel, t :: ts =>
    if isSelectorToken t then annotate (t.drop 1) ts
    else (t, sel) :: annotate sel ts

/-- Outcome of `parser.ParseCLI` in main.cpp lines 121-134: success, the
help exception, a parse error, or a validation error. -/
inductive ParseOutcome where
  | success : ParseOutcome
  | help : ParseOutcome
  | parseError (msg : String) : ParseOutcome
  | validationError (msg : String) : ParseOutcome

/-- Result of `mainFunc`: its return value (exit code of the process when
nothing throws later), the events of the secondary forwarding loop, and the
startup load tasks enqueued by the primary path. -/
structure MainResult where
  exitCode : Int
  secEvents : List SecEvent
  tasks : List LoadTask
  deriving DecidableEq

/-- Shallow embedding of `mainFunc` (main.cpp lines 24-212) restricted to
the observable behaviour the claims are about: exit code, the secondary
forwarding events, and the primary startup load tasks. `isPrimaryInstance`
is the result of `ipc->isPrimaryInstance()`, `parse` the outcome of
`parser.ParseCLI`, and `imageFiles` the parsed positional tokens. -/
def mainFunc (isPrimaryInstance : Bool) (parse : ParseOutcome) (env : SecEnv)
    (imageFiles : List String) : MainResult :=
  match parse with
  | ParseOutcome.help => ⟨0, [], []⟩
  | ParseOutcome.parseError _ => ⟨-1, [], []⟩
  | ParseOutcome.validationError _ => ⟨-2, [], []⟩
  | ParseOutcome.success =>
    if !isPrimaryInstance then
      ⟨0, secondaryLoop env "" imageFiles, []⟩
    else
      ⟨0, [], primaryLoop "" imageFiles⟩

/-- The startup maximize decision (main.cpp line 187):
`maximizeFlag ? get(maximizeFlag) : imageFiles`. The flag is `some b` when
given on the command line; when absent, the `imageFiles` positional list is
truthy exactly when it matched at least one positional token. -/
def maximizeOnStartup (maximizeFlag : Option Bool) (imageFiles : List String) : Bool :=
  match maximizeFlag with
  | some b => b
  | none => !imageFiles.isEmpty

/-- Shallow embedding of `main` (main.cpp lines 216-223): run `mainFunc`,
catching `runtime_error`. On an exception the handler prints
`"Uncaught exception: "` plus the message to `cerr` and returns 1; on the
non-throwing path the return value of `mainFunc` is discarded and control
falls off the end of `main`, which in C++ returns 0. The result pairs the
process exit code with the lines written to `cerr` by `main` itself. -/
def main (run : Except String Int) : Int × List String :=
  match run with
  | Except.error e => (1, ["Uncaught exception: " ++ e])
  | Except.ok _ => (0, [])

/-- Modelled from the spec: the single-worker variant of `ThreadPool`
(include/ThreadPool.h is not under src/). A pool of size one whose single
worker executes tasks strictly in submission order; `pending` is the FIFO of
submitted, not yet executed tasks and `executed` the tasks already run, in
execution order. -/
structure SingleWorkerPool (τ : Type) where
  pending : List τ
  executed : List τ
  deriving DecidableEq

/-- Modelled from the spec: `enqueueTask(work)` schedules `work` and returns
immediately; the task joins the back of the FIFO of pending tasks. -/
def SingleWorkerPool.enqueueTask (p : SingleWorkerPool τ) (t : τ) : SingleWorkerPool τ :=
  ⟨p.pending ++ [t], p.executed⟩

/-- Auxiliary for `SingleWorkerPool.runAll`: the single worker repeatedly
takes the oldest pending task and executes it. -/
def runWorker : List τ → List τ → List τ
  | ex, [] => ex
  | ex, t :: ts => runWorker (ex ++ [t]) ts

/-- Modelled from the spec: let the single worker run until the pending FIFO
is drained (as `shutdown()` does: tasks are drained, not aborted). -/
def SingleWorkerPool.runAll (p : SingleWorkerPool τ) : SingleWorkerPool τ :=
  ⟨[], runWorker p.executed p.pending⟩

/-- The pool state after the primary startup loop has enqueued one load task
per non-selector token on `ThreadPool::singleWorker()` (main.cpp lines
162-175), in command-line order, starting from an idle pool. -/
def startupPool (tokens : List String) : SingleWorkerPool LoadTask :=
  (primaryLoop "" tokens).foldl SingleWorkerPool.enqueueTask ⟨[], []⟩

/-- The body of one startup load task (main.cpp lines 169-174): call
`tryLoadImage(imageFile, channelSelector)` and, only when the result is
non-null, push `{false, image}` onto the shared queue. -/
def runLoadTask (tryLoadImage : String → String → Option Image) (t : LoadTask)
    (imagesToAdd : SharedQueue (ImageAddition Image)) : SharedQueue (ImageAddition Image) :=
  let image := tryLoadImage t.path t.selector
  if image.isSome then imagesToAdd.push ⟨false, image⟩ else imagesToAdd

/-- State of an in-progress concurrent production run: what each producer
still has to push, and the shared queue so far. -/
structure ProducerState (α : Type) where
  remaining : List (List α)
  queue : SharedQueue α
  deriving DecidableEq

/-- One scheduler step of the concurrent production run: producer `i` (if it
still has items) pushes its next item onto the shared queue. Because every
`push` is synchronized, a concurrent execution is exactly some interleaving
of the producers' steps. -/
def pushStep (st : ProducerState α) (i : Nat) : ProducerState α :=
  match st.remaining[i]? with
  | some (x :: xs) => ⟨st.remaining.set i xs, st.queue.push x⟩
  | _ => st

/-- Run a concurrent production of the given producer sequences under the
interleaving chosen by the scheduler `sched` (the list of producer indices in
the order their pushes took effect). -/
def runSchedule (producers : List (List α)) (sched : List Nat) : ProducerState α :=
  sched.foldl pushStep ⟨producers, ⟨[]⟩⟩

/-- The exit code of the owning process on an invocation where `mainFunc`
returns normally: `main` (main.cpp line 218) calls `tev::mainFunc(argc,
argv);` as a bare statement, discarding its return value, and control falls
off the end of `main`, which in C++ exits 0. -/
def processExitCode (isPrimaryInstance : Bool) (parse : ParseOutcome) (env : SecEnv)
    (imageFiles : List String) : Int :=
  (main (Except.ok (mainFunc isPrimaryInstance parse env imageFiles).exitCode)).1

/-- A concrete all-succeeding environment for witnesses: `absolutePath`
prepends a directory, `sendToPrimaryInstance` always succeeds. -/
def envOk : SecEnv :=
  ⟨fun t => Except.ok ("/abs/" ++ t), fun _ => Except.ok ()⟩

/-- A concrete all-failing environment for witnesses: `absolutePath` always
throws. -/
def envFail : SecEnv :=
  ⟨fun _ => Except.error "no such file", fun _ => Except.ok ()⟩

theorem drainList_eq (l : List α) : drainList l = l := by
  induction l with
  | nil => rfl
  | cons x xs ih => simp [drainList, ih]

theorem drainAll_eq_items (q : SharedQueue α) : q.drainAll = q.items :=
  drainList_eq q.items

/-- `drainAll` is exactly repeated `tryPop` until the queue reports empty. -/
theorem drainAll_tryPop (q : SharedQueue α) :
    q.drainAll = match q.tryPop with
      | (none, _) => []
      | (some x, q2) => x :: q2.drainAll := by
  rcases q with ⟨items⟩
  cases items <;> simp [SharedQueue.drainAll, SharedQueue.tryPop, drainList]

/-- The secondary loop is the spec-side selector fold followed by one
forwarding attempt per non-selector token. -/
theorem secondaryLoop_eq_map (env : SecEnv) (sel : String) (ts : List String) :
    secondaryLoop env sel ts = (annotate sel ts).map (fun p => forwardOne env p.2 p.1) := by
  induction ts generalizing sel with
  | nil => rfl
  | cons t ts ih =>
    simp only [secondaryLoop, annotate]
    cases h : isSelectorToken t <;> simp [h, ih]

/-- The primary startup loop is the spec-side selector fold followed by one
load task per non-selector token. -/
theorem primaryLoop_eq_map (sel : String) (ts : List String) :
    primaryLoop sel ts = (annotate sel ts).map (fun p => LoadTask.mk p.1 p.2) := by
  induction ts generalizing sel with
  | nil => rfl
  | cons t ts ih =>
    simp only [primaryLoop, annotate]
    cases h : isSelectorToken t <;> simp [h, ih]

/-- No selector token survives the selector fold. -/
theorem annotate_not_selector (sel : String) (ts : List String) (p : String × String)
    (hp : p ∈ annotate sel ts) : isSelectorToken p.1 = false := by
  induction ts generalizing sel with
  | nil => simp [annotate] at hp
  | cons t ts ih =>
    simp only [annotate] at hp
    cases h : isSelectorToken t
    · rw [h] at hp
      simp at hp
      rcases hp with rfl | hp
      · exact h
      · exact ih _ hp
    · rw [h] at hp
      simp at hp
      exact ih _ hp

theorem runWorker_eq (ex ts : List τ) : runWorker ex ts = ex ++ ts := by
  induction ts generalizing ex with
  | nil => simp [runWorker]
  | cons t ts ih => simp [runWorker, ih]

theorem foldl_enqueueTask (tasks : List τ) (p : SingleWorkerPool τ) :
    tasks.foldl SingleWorkerPool.enqueueTask p = ⟨p.pending ++ tasks, p.executed⟩ := by
  induction tasks generalizing p with
  | nil => simp
  | cons t ts ih => simp [List.foldl, SingleWorkerPool.enqueueTask, ih]

/-- Removing the head of the `i`-th producer sequence and appending it to the
queue permutes the total content. -/
theorem flatten_set_perm (ls : List (List α)) (i : Nat) (x : α) (xs : List α)
    (h : ls[i]? = some (x :: xs)) :
    ((ls.set i xs).flatten ++ [x]).Perm ls.flatten := by
  induction ls generalizing i with
  | nil => simp at h
  | cons hd tl ih =>
    cases i with
    | zero =>
      simp at h
      subst h
      simpa [List.set, List.flatten] using List.perm_append_singleton x (xs ++ tl.flatten)
    | succ n =>
      simp at h
      have h2 := (ih n h).append_left hd
      have e1 : ((hd :: tl).set (n + 1) xs).flatten ++ [x]
          = hd ++ ((tl.set n xs).flatten ++ [x]) := by
        simp [List.set, List.flatten]
      rw [e1]
      simpa [List.flatten] using h2

/-- One scheduler step preserves the multiset of items split between the
producers and the queue. -/
theorem pushStep_perm (st : ProducerState α) (i : Nat) :
    ((pushStep st i).remaining.flatten ++ (pushStep st i).queue.items).Perm
      (st.remaining.flatten ++ st.queue.items) := by
  unfold pushStep
  split
  next x xs h =>
    have h1 := (flatten_set_perm st.remaining i x xs h).append_right st.queue.items
    have p1 : (st.queue.items ++ [x]).Perm ([x] ++ st.queue.items) :=
      List.perm_append_comm
    have p2 := p1.append_left ((st.remaining.set i xs).flatten)
    have e1 : (st.queue.push x).items = st.queue.items ++ [x] := rfl
    simp only [e1]
    exact p2.trans (by simpa [List.append_assoc] using h1)
  next => exact List.Perm.refl _

/-- Any interleaving of pushes preserves the multiset of items split between
the producers and the queue. -/
theorem foldl_pushStep_perm (sched : List Nat) (st : ProducerState α) :
    ((sched.foldl pushStep st).remaining.flatten ++ (sched.foldl pushStep st).queue.items).Perm
      (st.remaining.flatten ++ st.queue.items) := by
  induction sched generalizing st with
  | nil => exact List.Perm.refl _
  | cons i rest ih => exact (ih (pushStep st i)).trans (pushStep_perm st i)

theorem flatten_length_of_const (producers : List (List α)) (M : Nat)
    (hM : ∀ l ∈ producers, l.length = M) :
    producers.flatten.length = producers.length * M := by
  induction producers with
  | nil => simp
  | cons hd tl ih =>
    have hhd : hd.length = M := hM hd (by simp)
    have htl : tl.flatten.length = tl.length * M :=
      ih (fun l hl => hM l (by simp [hl]))
    simp [List.flatten, hhd, htl]
    ring

theorem flatten_eq_nil_of_all_isEmpty (ls : List (List α))
    (h : ls.all List.isEmpty = true) : ls.flatten = [] := by
  induction ls with
  | nil => rfl
  | cons hd tl ih =>
    simp only [List.all_cons, Bool.and_eq_true] at h
    obtain ⟨h1, h2⟩ := h
    cases hd with
    | nil => simpa [List.flatten] using ih h2
    | cons a as => simp [List.isEmpty] at h1

/-- Claim C1: every secondary-instance invocation (with a successful parse)
returns exit code 0 and attempts one forward per non-selector token —
whatever the outcomes of `absolutePath` and `sendToPrimaryInstance`, even
when they fail for some or all tokens — each failure becoming its own
reported error event while the loop continues over the remaining tokens. -/
theorem secondary_exits_zero_attempts_all (env : SecEnv) (tokens : List String) :
    (mainFunc false ParseOutcome.success env tokens).exitCode = 0 ∧
    (mainFunc false ParseOutcome.success env tokens).secEvents
      = (annotate "" tokens).map (fun p => forwardOne env p.2 p.1) := by
  constructor
  · rfl
  · simpa [mainFunc] using secondaryLoop_eq_map env "" tokens

/-- Claim C2, evaluated at the failing input: on an argument-parse failure
`mainFunc` returns -1 and on a validation failure -2 — the codes the claim
(and the spec) names — yet the owning process exits 0 in both cases, and
also 0 when help is shown, because `main` discards `mainFunc`'s return value
and falls off its end. The process exit code is never negative, so the
claim's negative-exit-code half contradicts the code: `mainFunc` computing
distinct error codes only makes sense if `main` returned them, and the
discard at main.cpp line 218 is the slip. -/
theorem parse_failure_process_exits_zero :
    (mainFunc false (ParseOutcome.parseError "unknown flag") envOk []).exitCode = -1 ∧
    (mainFunc false (ParseOutcome.validationError "bad value") envOk []).exitCode = -2 ∧
    processExitCode false (ParseOutcome.parseError "unknown flag") envOk [] = 0 ∧
    processExitCode false (ParseOutcome.validationError "bad value") envOk [] = 0 ∧
    processExitCode false ParseOutcome.help envOk [] = 0 :=
  ⟨rfl, rfl, rfl, rfl, rfl⟩

/-- Claim C3 counterexample: with the maximize flag absent and the single
positional token ":R" — a channel selector, hence zero images supplied — the
source still maximizes, because line 187 tests whether the positional list
matched at all, channel selectors included. So "maximized iff at least one
image (selectors not being images) was supplied" is false on the code. -/
theorem maximize_claim_counterexample :
    ¬ (maximizeOnStartup none [":R"] = true ↔
        0 < ([":R"].filter (fun t => !(isSelectorToken t))).length) := by
  decide

/-- Claim C3 amended: when the maximize flag is present its value alone
decides; when absent, the window is maximized iff at least one positional
token (image file or channel selector alike) was supplied. -/
theorem maximize_flag_decision (b : Bool) (tokens : List String) :
    maximizeOnStartup (some b) tokens = b ∧
    maximizeOnStartup none tokens = !tokens.isEmpty :=
  ⟨rfl, rfl⟩

/-- Claim C4: in both the secondary and the primary path the selector starts
empty; a token whose first character is the colon replaces the selector with
the remainder of that token and is itself neither forwarded nor loaded; and
every other token is processed with the most recently set selector. Both
loops are the map over the spec-side selector fold `annotate` started at the
empty selector, `annotate` folds exactly as described, and its output pairs
contain no selector token. -/
theorem selector_threading_both_paths (env : SecEnv) (tokens : List String) :
    ((mainFunc false ParseOutcome.success env tokens).secEvents
        = (annotate "" tokens).map (fun p => forwardOne env p.2 p.1)) ∧
    ((mainFunc true ParseOutcome.success env tokens).tasks
        = (annotate "" tokens).map (fun p => LoadTask.mk p.1 p.2)) ∧
    (∀ sel t ts, annotate sel (t :: ts)
        = if isSelectorToken t then annotate (t.drop 1) ts
          else (t, sel) :: annotate sel ts) ∧
    (∀ p ∈ annotate "" tokens, isSelectorToken p.1 = false) := by
  refine ⟨?_, ?_, ?_, ?_⟩
  · simpa [mainFunc] using secondaryLoop_eq_map env "" tokens
  · simpa [mainFunc] using primaryLoop_eq_map "" tokens
  · intro sel t ts
    rfl
  · intro p hp
    exact annotate_not_selector "" tokens p hp

/-- Witness for C4: concrete run with one selector token and one file
token, and a concrete discharge of the membership hypothesis of its last
conjunct. -/
theorem selector_threading_both_paths_witness :
    (mainFunc false ParseOutcome.success envOk [":R", "a.png"]).secEvents
        = [SecEvent.sent "/abs/a.png:R"] ∧
    isSelectorToken "a.png" = false := by
  constructor
  · rw [(selector_threading_both_paths envOk [":R", "a.png"]).1]
    decide
  · exact (selector_threading_both_paths envOk [":R", "a.png"]).2.2.2
      ("a.png", "R") (by decide)

/-- Claim C5: every payload a secondary instance successfully hands to
`sendToPrimaryInstance` is exactly `absolutePath(token) ++ ":" ++ selector`
for some forwarded token and the selector active at its position; when that
selector is empty the payload ends in a trailing colon with nothing after
it. -/
theorem sent_payload_format (env : SecEnv) (tokens : List String) (payload : String)
    (hp : SecEvent.sent payload ∈ (mainFunc false ParseOutcome.success env tokens).secEvents) :
    ∃ t sel a, (t, sel) ∈ annotate "" tokens ∧ env.absolutePath t = Except.ok a ∧
      payload = a ++ ":" ++ sel ∧ (sel = "" → payload = a ++ ":") := by
  have hp2 : SecEvent.sent payload
      ∈ (annotate "" tokens).map (fun p => forwardOne env p.2 p.1) := by
    rw [← secondaryLoop_eq_map]
    exact hp
  rw [List.mem_map] at hp2
  obtain ⟨⟨t, sel⟩, hmem, heq⟩ := hp2
  simp only at heq
  unfold forwardOne at heq
  split at heq
  · simp at heq
  · rename_i a h1
    split at heq
    · simp at heq
    · rename_i u h2
      simp at heq
      refine ⟨t, sel, a, hmem, h1, heq.symm, fun hsel => ?_⟩
      rw [← heq, hsel]
      simp

/-- Witness for C5: the concrete payload produced for the single token
"img.exr" under the all-succeeding environment. -/
theorem sent_payload_format_witness :
    ∃ t sel a, (t, sel) ∈ annotate "" ["img.exr"] ∧
      envOk.absolutePath t = Except.ok a ∧
      ("/abs/img.exr:" : String) = a ++ ":" ++ sel ∧
      (sel = "" → ("/abs/img.exr:" : String) = a ++ ":") :=
  sent_payload_format envOk ["img.exr"] "/abs/img.exr:" (by decide)

/-- Claim C6: one startup load task pushes exactly one ImageAddition onto
the shared queue when `tryLoadImage` returns a non-null image and none when
it returns null; in particular each file token yields at most one. -/
theorem load_task_push_count {Image : Type}
    (tryLoadImage : String → String → Option Image) (t : LoadTask)
    (q : SharedQueue (ImageAddition Image)) :
    (runLoadTask tryLoadImage t q).items.length
        = q.items.length + (if (tryLoadImage t.path t.selector).isSome then 1 else 0) ∧
    (runLoadTask tryLoadImage t q).items.length ≤ q.items.length + 1 := by
  unfold runLoadTask
  cases h : tryLoadImage t.path t.selector <;> simp [h, SharedQueue.push]

/-- Claim C7: the primary startup loop enqueues one load task per
non-selector token on the single-worker pool in command-line order, and
running that pool executes exactly those tasks in submission order, leaving
nothing pending. -/
theorem startup_tasks_serialized (tokens : List String) :
    ((startupPool tokens).runAll).executed = primaryLoop "" tokens ∧
    ((startupPool tokens).runAll).pending = [] ∧
    primaryLoop "" tokens = (annotate "" tokens).map (fun p => LoadTask.mk p.1 p.2) := by
  refine ⟨?_, ?_, primaryLoop_eq_map "" tokens⟩
  · unfold startupPool
    rw [foldl_enqueueTask]
    simp [SingleWorkerPool.runAll, runWorker_eq]
  · unfold startupPool
    rw [foldl_enqueueTask]
    rfl

/-- Claim C8: under any interleaving of N producers each pushing M items
through the queue's synchronized `push`, once every producer has completed
all its pushes the queue drains by repeated `tryPop` to a permutation of all
pushed items — each pushed item delivered exactly once, none lost, none
duplicated — and the total count is N×M. -/
theorem queue_no_loss_no_duplication {α : Type} (producers : List (List α))
    (sched : List Nat) (N M : Nat)
    (hdone : (runSchedule producers sched).remaining.all List.isEmpty = true)
    (hN : producers.length = N) (hM : ∀ l ∈ producers, l.length = M) :
    ((runSchedule producers sched).queue.drainAll).Perm producers.flatten ∧
    ((runSchedule producers sched).queue.drainAll).length = N * M := by
  have hperm : ((runSchedule producers sched).remaining.flatten
      ++ (runSchedule producers sched).queue.items).Perm
        (producers.flatten ++ ([] : List α)) :=
    foldl_pushStep_perm sched ⟨producers, ⟨[]⟩⟩
  have hnil := flatten_eq_nil_of_all_isEmpty _ hdone
  rw [hnil] at hperm
  simp only [List.nil_append, List.append_nil] at hperm
  refine ⟨?_, ?_⟩
  · rw [drainAll_eq_items]
    exact hperm
  · rw [drainAll_eq_items, hperm.length_eq, flatten_length_of_const producers M hM, hN]

/-- Witness for C8: two producers of two items each under a concrete
interleaving. -/
theorem queue_no_loss_no_duplication_witness :
    ((runSchedule [[0, 1], [2, 3]] [0, 1, 1, 0]).queue.drainAll).Perm
        ([[0, 1], [2, 3]] : List (List Nat)).flatten ∧
    ((runSchedule [[0, 1], [2, 3]] [0, 1, 1, 0]).queue.drainAll).length = 2 * 2 :=
  queue_no_loss_no_duplication [[0, 1], [2, 3]] [0, 1, 1, 0] 2 2 (by decide) rfl
    (by decide)

/-- Claim C9: `main` catches a runtime_error thrown by `mainFunc`, prints
"Uncaught exception: " plus its message to the error stream and exits with
code 1; on the non-throwing path it discards the returned value and the
process exits with code 0 (control falls off the end of `main`). -/
theorem main_exception_handling :
    (∀ e : String, main (Except.error e) = (1, ["Uncaught exception: " ++ e])) ∧
    (∀ v : Int, main (Except.ok v) = (0, [])) :=
  ⟨fun _ => rfl, fun _ => rfl⟩

/-- Claim C10: every ImageAddition a startup load task pushes onto the
shared queue (i.e. every item of the resulting queue that is not
pre-existing content) has shouldReplace = false and a non-null image. -/
theorem pushed_addition_fields {Image : Type}
    (tryLoadImage : String → String → Option Image) (t : LoadTask)
    (q : SharedQueue (ImageAddition Image)) (a : ImageAddition Image)
    (ha : a ∈ (runLoadTask tryLoadImage t q).items) :
    a ∈ q.items ∨ (a.shouldReplace = false ∧ a.image.isSome = true) := by
  unfold runLoadTask at ha
  cases h : tryLoadImage t.path t.selector with
  | none =>
    rw [h] at ha
    simp at ha
    exact Or.inl ha
  | some img =>
    rw [h] at ha
    simp [SharedQueue.push] at ha
    rcases ha with ha | rfl
    · exact Or.inl ha
    · exact Or.inr ⟨rfl, rfl⟩

/-- Witness for C10: the concrete addition pushed by a task whose load
succeeds, starting from the empty queue. -/
theorem pushed_addition_fields_witness :
    (⟨false, some 0⟩ : ImageAddition Nat)
        ∈ (SharedQueue.mk ([] : List (ImageAddition Nat))).items ∨
    ((⟨false, some 0⟩ : ImageAddition Nat).shouldReplace = false ∧
      (⟨false, some 0⟩ : ImageAddition Nat).image.isSome = true) :=
  pushed_addition_fields (fun _ _ => some 0) ⟨"a", ""⟩ ⟨[]⟩ ⟨false, some 0⟩ (by decide)

end Tev
